import Mathlib

/-!
Shallow embedding of `lib/sqlalchemy/sql/default_comparator.py`: the
operator-resolution engine that, given an anchor expression, an operator
token and an operand, builds an immutable expression-tree node.

External collaborators (the coercion engine `coercions.expect`, the node
classes of `elements.py`, the operator tokens of `operators.py`) are
modelled as uninterpreted constructors: a call to `coercions.expect`
becomes a `Sql.coerced` node recording the role, the element and the
contextual expression/operator, and `BinaryExpression(...)` becomes a
`Sql.binary` node recording exactly the arguments the handler passed.
-/

set_option autoImplicit false

namespace DefaultComparator

/-- Operator tokens of `operators.py` that appear in
`default_comparator.py`: every key of `operator_lookup` plus the three
negation partners (`not_contains_op`, `not_startswith_op`,
`not_endswith_op`) that are referenced as `negate_op` values but are not
themselves keys of the table. -/
inductive Op where
  | and_ | or_ | inv
  | add | mul | sub | div | mod | truediv | floordiv
  | custom_op | json_path_getitem_op | json_getitem_op | concat_op
  | any_op | all_op
  | lt | le | ne | gt | ge | eq
  | is_distinct_from | is_not_distinct_from
  | like_op | ilike_op | not_like_op | not_ilike_op
  | contains_op | not_contains_op
  | startswith_op | not_startswith_op
  | endswith_op | not_endswith_op
  | desc_op | asc_op | nulls_first_op | nulls_last_op
  | in_op | not_in_op
  | is_ | is_not
  | collate | match_op | not_match_op | distinct_op
  | between_op | not_between_op
  | neg | getitem | lshift | rshift | contains
  | regexp_match_op | not_regexp_match_op | regexp_replace_op
  deriving DecidableEq, Repr, Fintype

/-- Coercion roles of `roles.py` used by `default_comparator.py`. -/
inductive Role where
  | BinaryElementRole | ConstExprRole | InElementRole
  deriving DecidableEq, Repr

/-- Result types from `type_api` used by the handlers.  `NULLTYPE` is the
default a `BinaryExpression` receives when a handler passes no `type_`
argument (the behaviour of the external `elements.py` constructor). -/
inductive TypeEngine where
  | BOOLEANTYPE | MATCHTYPE | NULLTYPE
  | userType (n : Nat)
  deriving DecidableEq, Repr

/-- Operands and expression nodes.  Python-level raw values (`None`,
`bool`) and the literal element classes (`Null`, `True_`, `False_`) are
constructors of their own so the `isinstance` tests of
`_boolean_compare` can be expressed; `coerced` is the uninterpreted
image of a `coercions.expect` call, recording the role, the element and
the `expr=`/`operator=` context keywords (`none` when the source call
site passes no context); `annotatedInOps` models an already-built
element carrying an `in_ops` entry in its `_annotations` mapping, as
produced for example by an already-negated subquery. -/
inductive Sql where
  | pyNone : Sql
  | pyBool : Bool → Sql
  | nullElem : Sql
  | trueElem : Sql
  | falseElem : Sql
  | column : Nat → Sql
  | annotatedInOps : Sql → Op → Op → Sql
  | coerced : Role → Sql → Option Sql → Option Op → Sql
  | binary : Sql → Sql → Op → TypeEngine → Option Op → List (String × Option Sql) → Sql
  | clauseList : List Sql → Op → Bool → Bool → Sql
  | unary : Sql → Op → TypeEngine → Sql

/-- Keyword-modifier bag (`**kwargs`) carried opaquely into the
`modifiers` field of a `BinaryExpression`; a value may be Python `None`
(as the `flags=None` keyword of the regex handlers is). -/
abbrev Mods := List (String × Option Sql)

/-- Errors a handler can raise.  `argumentError` is `exc.ArgumentError`,
`notImplementedError` the `NotImplementedError` of the unsupported /
conjunction handlers, and `coercionError` stands for an error propagated
out of the external coercion engine (never raised by the embedded code
itself, present so the two kinds are distinguishable). -/
inductive BuildError where
  | argumentError
  | notImplementedError
  | coercionError
  deriving DecidableEq, Repr

/-- The test `isinstance(obj, _python_is_types + (Null, True_, False_))`
of `_boolean_compare` with the default `_python_is_types = (NoneType,
bool)`. -/
def isPythonIsType : Sql → Bool
  | Sql.pyNone => true
  | Sql.pyBool _ => true
  | Sql.nullElem => true
  | Sql.trueElem => true
  | Sql.falseElem => true
  | _ => false

/-- The test `isinstance(obj, (bool, True_, False_))` of
`_boolean_compare`. -/
def isBoolLike : Sql → Bool
  | Sql.pyBool _ => true
  | Sql.trueElem => true
  | Sql.falseElem => true
  | _ => false

/-- The context-free call `coercions.expect(roles.ConstExprRole, obj)`
used by the literal branches of `_boolean_compare`. -/
def expectConst (obj : Sql) : Sql :=
  Sql.coerced Role.ConstExprRole obj none none

/-- The trailing `if reverse: ... else: ...` construction shared by the
fall-through paths of `_boolean_compare` (the `_any_all_expr` path and
the general non-literal path reach it after rebinding `obj`). -/
def booleanTail (expr : Sql) (op : Op) (obj : Sql) (negate_op : Option Op)
    (reverse : Bool) (result_type : TypeEngine) (kwargs : Mods) : Sql :=
  if reverse then
    Sql.binary obj expr op result_type negate_op kwargs
  else
    Sql.binary expr obj op result_type negate_op kwargs

/-- Embedding of `_boolean_compare` (default_comparator.py lines 46-141)
with the keyword-only parameters made explicit: `negate_op`, `reverse`,
`any_all_expr` (`_any_all_expr`), `result_type0` (`result_type`, `none`
meaning not supplied) and the residual `**kwargs` bag.  The two IS / IS
NOT rewrite branches pass no `modifiers` argument, hence the empty
bag there, exactly as the source omits it. -/
def _boolean_compare (expr : Sql) (op : Op) (obj : Sql) (negate_op : Option Op)
    (reverse : Bool) (any_all_expr : Bool) (result_type0 : Option TypeEngine)
    (kwargs : Mods) : Except BuildError Sql :=
  if isPythonIsType obj = true then
    if (op = Op.eq ∨ op = Op.ne) ∧ isBoolLike obj = true then
      Except.ok (Sql.binary expr (expectConst obj) op
        (result_type0.getD TypeEngine.BOOLEANTYPE) negate_op kwargs)
    else if op = Op.is_distinct_from ∨ op = Op.is_not_distinct_from then
      Except.ok (Sql.binary expr (expectConst obj) op
        (result_type0.getD TypeEngine.BOOLEANTYPE) negate_op kwargs)
    else if any_all_expr = true then
      Except.ok (booleanTail expr op
        (Sql.coerced Role.ConstExprRole obj (some expr) (some op))
        negate_op reverse (result_type0.getD TypeEngine.BOOLEANTYPE) kwargs)
    else if op = Op.eq ∨ op = Op.is_ then
      Except.ok (Sql.binary expr (expectConst obj) Op.is_
        (result_type0.getD TypeEngine.BOOLEANTYPE) (some Op.is_not) [])
    else if op = Op.ne ∨ op = Op.is_not then
      Except.ok (Sql.binary expr (expectConst obj) Op.is_not
        (result_type0.getD TypeEngine.BOOLEANTYPE) (some Op.is_) [])
    else
      Except.error BuildError.argumentError
  else
    Except.ok (booleanTail expr op
      (Sql.coerced Role.BinaryElementRole obj (some expr) (some op))
      negate_op reverse (result_type0.getD TypeEngine.BOOLEANTYPE) kwargs)

/-- Hook signature of `left.comparator._adapt_expression(op,
right.comparator)`: a node's comparator is determined by the node, so
the hook is modelled as an external function taking the left node, the
operator and the right node, returning the possibly-rewritten operator
and the inferred result type. -/
abbrev AdaptHook := Sql → Op → Sql → Op × TypeEngine

/-- Embedding of `_binary_operate` (lines 156-182).  `adapt` is the
external type-adaptation hook; it is consulted only when `result_type`
is not supplied, and then on the node standing in the left position
after the `reverse` swap. -/
def _binary_operate (adapt : AdaptHook) (expr : Sql) (op : Op) (obj : Sql)
    (reverse : Bool) (result_type : Option TypeEngine) (kw : Mods) : Sql :=
  let coerced_obj := Sql.coerced Role.BinaryElementRole obj (some expr) (some op)
  let lr := if reverse then (coerced_obj, expr) else (expr, coerced_obj)
  match result_type with
  | some t => Sql.binary lr.1 lr.2 op t none kw
  | none =>
      let ot := adapt lr.1 op lr.2
      Sql.binary lr.1 lr.2 ot.1 ot.2 none kw

/-- Lookup of the `in_ops` entry of an element's `_annotations` mapping
(`seq_or_selectable._annotations["in_ops"]`).  The external coercion
engine passes an already-built element through, so a `coerced` node
exposes the entry of the element it wraps. -/
def getInOps : Sql → Option (Op × Op)
  | Sql.annotatedInOps _ o n => some (o, n)
  | Sql.coerced _ elem _ _ => getInOps elem
  | _ => none

/-- Embedding of `_in_impl` (lines 198-207): coerce the candidate under
`roles.InElementRole`, let an `in_ops` annotation of the coerced operand
override the `(op, negate_op)` pair, and delegate to
`_boolean_compare`.  The residual `**kw` of the source is the explicit
`reverse`/`any_all_expr`/`result_type0`/`kwargs` parameters here. -/
def _in_impl (expr : Sql) (op : Op) (seq_or_selectable : Sql) (negate_op : Op)
    (reverse : Bool) (any_all_expr : Bool) (result_type0 : Option TypeEngine)
    (kwargs : Mods) : Except BuildError Sql :=
  let s := Sql.coerced Role.InElementRole seq_or_selectable (some expr) (some op)
  match getInOps s with
  | some (op2, negate2) =>
      _boolean_compare expr op2 s (some negate2) reverse any_all_expr result_type0 kwargs
  | none =>
      _boolean_compare expr op s (some negate_op) reverse any_all_expr result_type0 kwargs

/-- Embedding of `_match_impl` (lines 242-259): always builds with
`operators.match_op`, with `MATCHTYPE` as the result type, a pre-coerced
pattern, and the negation pair chosen by which operator the handler was
invoked for. -/
def _match_impl (expr : Sql) (op : Op) (other : Sql)
    (reverse : Bool) (any_all_expr : Bool) (kwargs : Mods) :
    Except BuildError Sql :=
  _boolean_compare expr Op.match_op
    (Sql.coerced Role.BinaryElementRole other (some expr) (some Op.match_op))
    (some (if op = Op.match_op then Op.not_match_op else Op.match_op))
    reverse any_all_expr (some TypeEngine.MATCHTYPE) kwargs

/-- Embedding of `_between_impl` (lines 269-295): a `BinaryExpression`
whose right side is a `ClauseList` of the two bounds, each coerced under
`roles.BinaryElementRole` with `operators.and_` as the contextual
operator, joined by `and_` with `group=False` and
`group_contents=False`; no `type_` argument is passed, so the node gets
the external constructor's default `NULLTYPE`. -/
def _between_impl (expr : Sql) (op : Op) (cleft : Sql) (cright : Sql)
    (kw : Mods) : Sql :=
  Sql.binary expr
    (Sql.clauseList
      [Sql.coerced Role.BinaryElementRole cleft (some expr) (some Op.and_),
       Sql.coerced Role.BinaryElementRole cright (some expr) (some Op.and_)]
      Op.and_ false false)
    op TypeEngine.NULLTYPE
    (some (if op = Op.between_op then Op.not_between_op else Op.between_op))
    kw

/-- Embedding of `_regexp_match_impl` (lines 302-319): a non-None
`flags` operand is coerced with `operators.regexp_replace_op` as the
contextual operator, then threaded as the `flags` keyword into the
`**kwargs` of `_boolean_compare` (hence into the node's modifiers); the
negation pair is `regexp_match_op`/`not_regexp_match_op`. -/
def _regexp_match_impl (expr : Sql) (op : Op) (pattern : Sql)
    (flags : Option Sql) (reverse : Bool) (any_all_expr : Bool)
    (result_type0 : Option TypeEngine) (kw : Mods) : Except BuildError Sql :=
  let flags2 : Option Sql :=
    match flags with
    | some fl =>
        some (Sql.coerced Role.BinaryElementRole fl (some expr)
          (some Op.regexp_replace_op))
    | none => none
  _boolean_compare expr op pattern
    (some (if op = Op.regexp_match_op then Op.not_regexp_match_op
           else Op.regexp_match_op))
    reverse any_all_expr result_type0 (("flags", flags2) :: kw)

/-- Bound scalar-construction functions appearing as the `fn` static
parameter of `_scalar` entries in `operator_lookup`. -/
inductive ScalarFn where
  | createAny | createAll | createDesc | createAsc
  | createNullsFirst | createNullsLast
  deriving DecidableEq, Repr

/-- Handler strategies a catalog entry can route to. -/
inductive Handler where
  | conjunctionOperate
  | invImpl
  | binaryOperate
  | customOpOperate
  | scalarFn (f : ScalarFn)
  | booleanCompare
  | inImpl
  | getitemImpl
  | unsupportedImpl
  | negImpl
  | matchImpl
  | distinctImpl
  | betweenImpl
  | collateImpl
  | regexpMatchImpl
  | regexpReplaceImpl
  deriving DecidableEq, Repr

/-- Embedding of the `operator_lookup` table (lines 345-458): for each
operator key, the handler and the `negate_op` static keyword argument
(`none` when the entry's static dictionary carries no `negate_op`).
Operators that are not keys of the table map to `none`. -/
def operator_lookup : Op → Option (Handler × Option Op)
  | Op.and_ => some (Handler.conjunctionOperate, none)
  | Op.or_ => some (Handler.conjunctionOperate, none)
  | Op.inv => some (Handler.invImpl, none)
  | Op.add => some (Handler.binaryOperate, none)
  | Op.mul => some (Handler.binaryOperate, none)
  | Op.sub => some (Handler.binaryOperate, none)
  | Op.div => some (Handler.binaryOperate, none)
  | Op.mod => some (Handler.binaryOperate, none)
  | Op.truediv => some (Handler.binaryOperate, none)
  | Op.floordiv => some (Handler.binaryOperate, none)
  | Op.custom_op => some (Handler.customOpOperate, none)
  | Op.json_path_getitem_op => some (Handler.binaryOperate, none)
  | Op.json_getitem_op => some (Handler.binaryOperate, none)
  | Op.concat_op => some (Handler.binaryOperate, none)
  | Op.any_op => some (Handler.scalarFn ScalarFn.createAny, none)
  | Op.all_op => some (Handler.scalarFn ScalarFn.createAll, none)
  | Op.lt => some (Handler.booleanCompare, some Op.ge)
  | Op.le => some (Handler.booleanCompare, some Op.gt)
  | Op.ne => some (Handler.booleanCompare, some Op.eq)
  | Op.gt => some (Handler.booleanCompare, some Op.le)
  | Op.ge => some (Handler.booleanCompare, some Op.lt)
  | Op.eq => some (Handler.booleanCompare, some Op.ne)
  | Op.is_distinct_from => some (Handler.booleanCompare, some Op.is_not_distinct_from)
  | Op.is_not_distinct_from => some (Handler.booleanCompare, some Op.is_distinct_from)
  | Op.like_op => some (Handler.booleanCompare, some Op.not_like_op)
  | Op.ilike_op => some (Handler.booleanCompare, some Op.not_ilike_op)
  | Op.not_like_op => some (Handler.booleanCompare, some Op.like_op)
  | Op.not_ilike_op => some (Handler.booleanCompare, some Op.ilike_op)
  | Op.contains_op => some (Handler.booleanCompare, some Op.not_contains_op)
  | Op.startswith_op => some (Handler.booleanCompare, some Op.not_startswith_op)
  | Op.endswith_op => some (Handler.booleanCompare, some Op.not_endswith_op)
  | Op.desc_op => some (Handler.scalarFn ScalarFn.createDesc, none)
  | Op.asc_op => some (Handler.scalarFn ScalarFn.createAsc, none)
  | Op.nulls_first_op => some (Handler.scalarFn ScalarFn.createNullsFirst, none)
  | Op.nulls_last_op => some (Handler.scalarFn ScalarFn.createNullsLast, none)
  | Op.in_op => some (Handler.inImpl, some Op.not_in_op)
  | Op.not_in_op => some (Handler.inImpl, some Op.in_op)
  | Op.is_ => some (Handler.booleanCompare, some Op.is_)
  | Op.is_not => some (Handler.booleanCompare, some Op.is_not)
  | Op.collate => some (Handler.collateImpl, none)
  | Op.match_op => some (Handler.matchImpl, none)
  | Op.not_match_op => some (Handler.matchImpl, none)
  | Op.distinct_op => some (Handler.distinctImpl, none)
  | Op.between_op => some (Handler.betweenImpl, none)
  | Op.not_between_op => some (Handler.betweenImpl, none)
  | Op.neg => some (Handler.negImpl, none)
  | Op.getitem => some (Handler.getitemImpl, none)
  | Op.lshift => some (Handler.unsupportedImpl, none)
  | Op.rshift => some (Handler.unsupportedImpl, none)
  | Op.contains => some (Handler.unsupportedImpl, none)
  | Op.regexp_match_op => some (Handler.regexpMatchImpl, none)
  | Op.not_regexp_match_op => some (Handler.regexpMatchImpl, none)
  | Op.regexp_replace_op => some (Handler.regexpReplaceImpl, none)
  | _ => none

/-- The catalog's negation mapping: the `negate_op` static parameter of
an operator's `operator_lookup` entry, when the operator is a key and
the entry carries one. -/
def catalogNegate (op : Op) : Option Op :=
  match operator_lookup op with
  | some (_, n) => n
  | none => none

/-- Operator field of a binary node. -/
def Sql.binOp : Sql → Option Op
  | Sql.binary _ _ op _ _ _ => some op
  | _ => none

/-- Negation-operator field of a binary node. -/
def Sql.binNegate : Sql → Option Op
  | Sql.binary _ _ _ _ n _ => n
  | _ => none

/-- Modifier bag of a binary node. -/
def Sql.binMods : Sql → Option Mods
  | Sql.binary _ _ _ _ _ m => some m
  | _ => none

/-- The guard under which a `_boolean_compare` call reaches one of the
two IS / IS NOT rewrite branches: a NULL/boolean literal operand, not
the direct boolean-literal equality case, not a distinct-from operator,
the quantified flag unset, and an operator in `{eq, is_, ne, is_not}`. -/
abbrev IsNullRewriteBranch (op : Op) (obj : Sql) (any_all_expr : Bool) : Prop :=
  isPythonIsType obj = true ∧
  ¬((op = Op.eq ∨ op = Op.ne) ∧ isBoolLike obj = true) ∧
  ¬(op = Op.is_distinct_from ∨ op = Op.is_not_distinct_from) ∧
  any_all_expr = false ∧
  ((op = Op.eq ∨ op = Op.is_) ∨ (op = Op.ne ∨ op = Op.is_not))

/-- Any boolean-like operand (`bool`, `True_`, `False_`) also satisfies
the outer literal `isinstance` test of `_boolean_compare`. -/
theorem isBoolLike_isPythonIsType (obj : Sql) (h : isBoolLike obj = true) :
    isPythonIsType obj = true := by
  cases obj <;> simp_all [isBoolLike, isPythonIsType]

/-- C1: when `_boolean_compare` is called with a bare NULL sentinel
(Python `None` or a `Null` node), the quantified flag unset, and
operator `eq` or `is_` (hence no distinct-from operator), the result is
a binary node whose operator is `is_` and whose negation is `is_not`;
symmetrically, with `ne` or `is_not` the operator is `is_not` and the
negation is `is_`. -/
theorem c1_null_rewrites_to_is (expr obj : Sql) (op : Op) (negate_op : Option Op)
    (reverse any_all : Bool) (rt : Option TypeEngine) (kw : Mods)
    (hobj : obj = Sql.pyNone ∨ obj = Sql.nullElem)
    (hq : any_all = false) :
    ((op = Op.eq ∨ op = Op.is_) →
      ∃ b, _boolean_compare expr op obj negate_op reverse any_all rt kw = Except.ok b ∧
        b.binOp = some Op.is_ ∧ b.binNegate = some Op.is_not) ∧
    ((op = Op.ne ∨ op = Op.is_not) →
      ∃ b, _boolean_compare expr op obj negate_op reverse any_all rt kw = Except.ok b ∧
        b.binOp = some Op.is_not ∧ b.binNegate = some Op.is_) := by
  subst hq
  rcases hobj with rfl | rfl <;>
    exact ⟨fun h => by rcases h with rfl | rfl <;> exact ⟨_, rfl, rfl, rfl⟩,
           fun h => by rcases h with rfl | rfl <;> exact ⟨_, rfl, rfl, rfl⟩⟩

/-- Witness for C1: `x == None` builds an IS node with negation IS NOT. -/
theorem c1_witness :
    ∃ b, _boolean_compare (Sql.column 0) Op.eq Sql.pyNone (some Op.ne)
        false false none [] = Except.ok b ∧
      b.binOp = some Op.is_ ∧ b.binNegate = some Op.is_not :=
  (c1_null_rewrites_to_is (Sql.column 0) Sql.pyNone Op.eq (some Op.ne)
    false false none [] (Or.inl rfl) rfl).1 (Or.inl rfl)

/-- C2: with operator `eq`/`ne` and a plain-boolean or TRUE/FALSE
literal operand, or with operator `is_distinct_from` /
`is_not_distinct_from` and any NULL/boolean literal operand,
`_boolean_compare` builds a binary node comparing the anchor directly
against the coerced literal with the given operator and the supplied
negation operator — no rewriting to IS / IS NOT. -/
theorem c2_literal_direct (expr obj : Sql) (op : Op) (negate_op : Option Op)
    (reverse any_all : Bool) (rt : Option TypeEngine) (kw : Mods)
    (h : ((op = Op.eq ∨ op = Op.ne) ∧ isBoolLike obj = true) ∨
         ((op = Op.is_distinct_from ∨ op = Op.is_not_distinct_from) ∧
           isPythonIsType obj = true)) :
    _boolean_compare expr op obj negate_op reverse any_all rt kw =
      Except.ok (Sql.binary expr (expectConst obj) op
        (rt.getD TypeEngine.BOOLEANTYPE) negate_op kw) := by
  have hlit : isPythonIsType obj = true := by
    rcases h with ⟨_, hb⟩ | ⟨_, hl⟩
    · exact isBoolLike_isPythonIsType obj hb
    · exact hl
  rcases h with ⟨hop, hb⟩ | ⟨hop, _⟩
  · rcases hop with rfl | rfl <;> simp [_boolean_compare, hlit, hb]
  · rcases hop with rfl | rfl <;> simp [_boolean_compare, hlit]

/-- Witness for C2: `x == True` compares directly against the literal. -/
theorem c2_witness :
    _boolean_compare (Sql.column 0) Op.eq (Sql.pyBool true) (some Op.ne)
        false false none [] =
      Except.ok (Sql.binary (Sql.column 0) (expectConst (Sql.pyBool true))
        Op.eq TypeEngine.BOOLEANTYPE (some Op.ne) []) :=
  c2_literal_direct (Sql.column 0) (Sql.pyBool true) Op.eq (some Op.ne)
    false false none [] (Or.inl ⟨Or.inl rfl, rfl⟩)

/-- C3: with a NULL/boolean literal operand, the quantified flag unset,
and an operator outside `{eq, ne, is_, is_not, is_distinct_from,
is_not_distinct_from}`, `_boolean_compare` raises `ArgumentError` — not
a coercion error — and constructs no node. -/
theorem c3_invalid_op_argument_error (expr obj : Sql) (op : Op)
    (negate_op : Option Op) (reverse : Bool) (rt : Option TypeEngine) (kw : Mods)
    (hobj : isPythonIsType obj = true)
    (h1 : op ≠ Op.eq) (h2 : op ≠ Op.ne) (h3 : op ≠ Op.is_) (h4 : op ≠ Op.is_not)
    (h5 : op ≠ Op.is_distinct_from) (h6 : op ≠ Op.is_not_distinct_from) :
    _boolean_compare expr op obj negate_op reverse false rt kw =
      Except.error BuildError.argumentError := by
  simp [_boolean_compare, hobj, h1, h2, h3, h4, h5, h6]

/-- Witness for C3: `x + None` fails with an argument error. -/
theorem c3_witness :
    _boolean_compare (Sql.column 0) Op.add Sql.pyNone none false false none [] =
      Except.error BuildError.argumentError :=
  c3_invalid_op_argument_error (Sql.column 0) Sql.pyNone Op.add none false none []
    rfl (by decide) (by decide) (by decide) (by decide) (by decide) (by decide)

/-- C4, counterexample: the claim that double application of the
catalog's negation mapping returns the original operator fails at
`contains_op`.  Its entry names `not_contains_op` as negation partner,
but `not_contains_op` is not a key of `operator_lookup`, so the second
application of the mapping yields nothing rather than `contains_op`. -/
theorem c4_counterexample :
    catalogNegate Op.contains_op = some Op.not_contains_op ∧
    catalogNegate Op.not_contains_op ≠ some Op.contains_op ∧
    catalogNegate Op.not_contains_op = none := by decide

/-- C4, amended: for every operator in the catalog whose negation
partner itself has a catalog negation partner, the double application
returns the original operator; in particular IN and NOT IN form a
mutual pair (each maps to the other, and they are distinct operators)
rather than each being its own inverse.  The only failures of the
unrestricted claim are `contains_op`, `startswith_op` and
`endswith_op`, whose partners are absent from the catalog. -/
theorem c4_negate_involution_amended :
    (∀ op nop : Op, catalogNegate op = some nop →
      (catalogNegate nop).isSome = true → catalogNegate nop = some op) ∧
    catalogNegate Op.in_op = some Op.not_in_op ∧
    catalogNegate Op.not_in_op = some Op.in_op ∧
    Op.not_in_op ≠ Op.in_op ∧
    (∀ op nop : Op, catalogNegate op = some nop →
      (catalogNegate nop).isSome = false →
      (op = Op.contains_op ∨ op = Op.startswith_op ∨ op = Op.endswith_op)) := by
  decide

/-- Witness for C4 at `eq`/`ne`: negating `ne` gives `eq` back. -/
theorem c4_witness : catalogNegate Op.ne = some Op.eq :=
  c4_negate_involution_amended.1 Op.eq Op.ne (by decide) (by decide)

/-- C5: `_between_impl` builds a binary node whose left operand is the
anchor, whose right operand is a two-element `ClauseList` of the two
bounds — each coerced under `BinaryElementRole` with `and_` as the
contextual operator — joined by `and_` with both `group` and
`group_contents` false, whose operator is the given one, and whose
negation is `not_between_op` when the operator is `between_op` and
`between_op` otherwise (in particular when it is `not_between_op`). -/
theorem c5_between_shape (expr cleft cright : Sql) (op : Op) (kw : Mods) :
    _between_impl expr op cleft cright kw =
      Sql.binary expr
        (Sql.clauseList
          [Sql.coerced Role.BinaryElementRole cleft (some expr) (some Op.and_),
           Sql.coerced Role.BinaryElementRole cright (some expr) (some Op.and_)]
          Op.and_ false false)
        op TypeEngine.NULLTYPE
        (some (if op = Op.between_op then Op.not_between_op else Op.between_op))
        kw := rfl

/-- C6: in `_binary_operate`, the type-adaptation hook is consulted if
and only if no explicit result type was supplied.  When a result type
`t` is supplied, the result is the same for any two hooks and is the
binary node built with the unrewritten operator and `t`.  When none is
supplied, the result is built from the hook of the node standing in the
left position after the `reverse` swap (the coerced operand if
`reverse`, else the anchor), applied to the operator and the right
operand, using the possibly-rewritten operator and the inferred type. -/
theorem c6_adapt_hook_iff (adapt adapt2 : AdaptHook) (expr obj : Sql) (op : Op)
    (reverse : Bool) (rt : Option TypeEngine) (kw : Mods) :
    (∀ t, rt = some t →
      _binary_operate adapt expr op obj reverse rt kw =
        _binary_operate adapt2 expr op obj reverse rt kw ∧
      _binary_operate adapt expr op obj reverse rt kw =
        Sql.binary
          (if reverse then Sql.coerced Role.BinaryElementRole obj (some expr) (some op)
           else expr)
          (if reverse then expr
           else Sql.coerced Role.BinaryElementRole obj (some expr) (some op))
          op t none kw) ∧
    (rt = none →
      _binary_operate adapt expr op obj reverse rt kw =
        (let left := if reverse then
            Sql.coerced Role.BinaryElementRole obj (some expr) (some op)
          else expr;
         let right := if reverse then expr
          else Sql.coerced Role.BinaryElementRole obj (some expr) (some op);
         Sql.binary left right (adapt left op right).1 (adapt left op right).2
           none kw)) := by
  constructor
  · rintro t rfl
    cases reverse <;> exact ⟨rfl, rfl⟩
  · rintro rfl
    cases reverse <;> rfl

/-- Witness for C6: with no explicit result type, the hook's rewritten
operator and inferred type appear in the node. -/
theorem c6_witness :
    _binary_operate (fun _ _ _ => (Op.concat_op, TypeEngine.userType 7))
        (Sql.column 0) Op.add (Sql.column 1) false none [] =
      Sql.binary (Sql.column 0)
        (Sql.coerced Role.BinaryElementRole (Sql.column 1) (some (Sql.column 0))
          (some Op.add))
        Op.concat_op (TypeEngine.userType 7) none [] :=
  (c6_adapt_hook_iff (fun _ _ _ => (Op.concat_op, TypeEngine.userType 7))
    (fun _ _ _ => (Op.concat_op, TypeEngine.userType 7))
    (Sql.column 0) (Sql.column 1) Op.add false none []).2 rfl

/-- C7: `_in_impl` coerces the candidate under `InElementRole`; when the
coerced operand carries an `in_ops` annotation, that `(op, negate_op)`
pair replaces the catalog's static pairing, and in either case the
handler delegates to `_boolean_compare` with the chosen pair and the
coerced operand. -/
theorem c7_in_override (expr seq : Sql) (op negate_op o n : Op)
    (reverse any_all : Bool) (rt : Option TypeEngine) (kw : Mods) :
    (getInOps (Sql.coerced Role.InElementRole seq (some expr) (some op)) =
        some (o, n) →
      _in_impl expr op seq negate_op reverse any_all rt kw =
        _boolean_compare expr o
          (Sql.coerced Role.InElementRole seq (some expr) (some op))
          (some n) reverse any_all rt kw) ∧
    (getInOps (Sql.coerced Role.InElementRole seq (some expr) (some op)) =
        none →
      _in_impl expr op seq negate_op reverse any_all rt kw =
        _boolean_compare expr op
          (Sql.coerced Role.InElementRole seq (some expr) (some op))
          (some negate_op) reverse any_all rt kw) := by
  constructor
  · intro h; simp [_in_impl, h]
  · intro h; simp [_in_impl, h]

/-- Witness for C7: an operand annotated with the pair `(ne, eq)`
overrides the static `(in_op, not_in_op)` pairing. -/
theorem c7_witness :
    _in_impl (Sql.column 0) Op.in_op
        (Sql.annotatedInOps (Sql.column 1) Op.ne Op.eq) Op.not_in_op
        false false none [] =
      _boolean_compare (Sql.column 0) Op.ne
        (Sql.coerced Role.InElementRole
          (Sql.annotatedInOps (Sql.column 1) Op.ne Op.eq)
          (some (Sql.column 0)) (some Op.in_op))
        (some Op.eq) false false none [] :=
  (c7_in_override (Sql.column 0) (Sql.annotatedInOps (Sql.column 1) Op.ne Op.eq)
    Op.in_op Op.not_in_op Op.ne Op.eq false false none []).1 rfl

/-- The trailing construction always carries the caller's modifier bag. -/
theorem binMods_booleanTail (expr : Sql) (op : Op) (obj : Sql)
    (negate_op : Option Op) (reverse : Bool) (t : TypeEngine) (kw : Mods) :
    (booleanTail expr op obj negate_op reverse t kw).binMods = some kw := by
  cases reverse <;> rfl

/-- C8: the two IS / IS NOT rewrite branches of `_boolean_compare` build
the node without the caller's keyword modifiers (the modifier bag is
empty whatever `kw` was), while every other node-constructing branch of
the handler attaches the caller's keyword modifiers to the node. -/
theorem c8_modifiers_frame (expr obj : Sql) (op : Op) (negate_op : Option Op)
    (reverse any_all : Bool) (rt : Option TypeEngine) (kw : Mods) :
    (IsNullRewriteBranch op obj any_all →
      ∃ b, _boolean_compare expr op obj negate_op reverse any_all rt kw =
          Except.ok b ∧ b.binMods = some []) ∧
    (¬ IsNullRewriteBranch op obj any_all →
      ∀ b, _boolean_compare expr op obj negate_op reverse any_all rt kw =
          Except.ok b → b.binMods = some kw) := by
  constructor
  · rintro ⟨hlit, hnb, hnd, rfl, hop⟩
    rcases hop with hop | hop
    · exact ⟨Sql.binary expr (expectConst obj) Op.is_
        (rt.getD TypeEngine.BOOLEANTYPE) (some Op.is_not) [],
        by simp only [_boolean_compare, if_pos hlit, if_neg hnb, if_neg hnd,
             Bool.false_eq_true, if_false, if_pos hop], rfl⟩
    · have hop' : ¬(op = Op.eq ∨ op = Op.is_) := by
        rcases hop with rfl | rfl <;> simp
      exact ⟨Sql.binary expr (expectConst obj) Op.is_not
        (rt.getD TypeEngine.BOOLEANTYPE) (some Op.is_) [],
        by simp only [_boolean_compare, if_pos hlit, if_neg hnb, if_neg hnd,
             Bool.false_eq_true, if_false, if_neg hop', if_pos hop], rfl⟩
  · intro h b hb
    by_cases hlit : isPythonIsType obj = true
    · by_cases g1 : (op = Op.eq ∨ op = Op.ne) ∧ isBoolLike obj = true
      · simp only [_boolean_compare, if_pos hlit, if_pos g1,
          Except.ok.injEq] at hb
        subst hb; rfl
      · by_cases g2 : op = Op.is_distinct_from ∨ op = Op.is_not_distinct_from
        · simp only [_boolean_compare, if_pos hlit, if_neg g1, if_pos g2,
            Except.ok.injEq] at hb
          subst hb; rfl
        · by_cases g3 : any_all = true
          · simp only [_boolean_compare, if_pos hlit, if_neg g1, if_neg g2,
              if_pos g3, Except.ok.injEq] at hb
            subst hb; exact binMods_booleanTail ..
          · by_cases g4 : op = Op.eq ∨ op = Op.is_
            · exact absurd ⟨hlit, g1, g2, by simpa using g3, Or.inl g4⟩ h
            · by_cases g5 : op = Op.ne ∨ op = Op.is_not
              · exact absurd ⟨hlit, g1, g2, by simpa using g3, Or.inr g5⟩ h
              · simp only [_boolean_compare, if_pos hlit, if_neg g1, if_neg g2,
                  if_neg g3, if_neg g4, if_neg g5] at hb
                exact Except.noConfusion hb
    · simp only [_boolean_compare, if_neg hlit, Except.ok.injEq] at hb
      subst hb; exact binMods_booleanTail ..

/-- Witness for C8: modifiers passed to `x == None` are dropped by the
rewrite branch, while the same modifiers survive on `x == True`. -/
theorem c8_witness :
    (∃ b, _boolean_compare (Sql.column 0) Op.eq Sql.pyNone (some Op.ne)
        false false none [("flags", none)] = Except.ok b ∧
      b.binMods = some []) ∧
    ∀ b, _boolean_compare (Sql.column 0) Op.eq (Sql.pyBool true) (some Op.ne)
        false false none [("flags", none)] = Except.ok b →
      b.binMods = some [("flags", none)] :=
  ⟨(c8_modifiers_frame (Sql.column 0) Sql.pyNone Op.eq (some Op.ne)
      false false none [("flags", none)]).1
      ⟨rfl, by simp [isBoolLike], by simp, rfl, Or.inl (Or.inl rfl)⟩,
   (c8_modifiers_frame (Sql.column 0) (Sql.pyBool true) Op.eq (some Op.ne)
      false false none [("flags", none)]).2
      (by rintro ⟨-, hnb, -, -, -⟩; exact hnb ⟨Or.inl rfl, rfl⟩)⟩

/-- C9: `_match_impl` always builds a node whose operator is the plain
`match_op`, whether invoked for match or for not-match; which one it was
invoked for shows up only in the negation field, `not_match_op` when
invoked for `match_op` and `match_op` otherwise. -/
theorem c9_match_operator (expr other : Sql) (op : Op)
    (reverse any_all : Bool) (kw : Mods) :
    ∃ b, _match_impl expr op other reverse any_all kw = Except.ok b ∧
      b.binOp = some Op.match_op ∧
      b.binNegate =
        some (if op = Op.match_op then Op.not_match_op else Op.match_op) := by
  cases reverse <;> exact ⟨_, rfl, rfl, rfl⟩

/-- C10: a non-None `flags` operand of `_regexp_match_impl` is coerced
with `regexp_replace_op` — not the regex-match operator being built — as
the contextual operator, and ends up in the node's modifier bag, while
the node's negation pairing remains `regexp_match_op` /
`not_regexp_match_op`. -/
theorem c10_regexp_flags_ctx (expr pattern fl : Sql) (op : Op)
    (reverse any_all : Bool) (rt : Option TypeEngine) (kw : Mods)
    (hp : isPythonIsType pattern = false) :
    ∃ b, _regexp_match_impl expr op pattern (some fl) reverse any_all rt kw =
        Except.ok b ∧
      b.binMods = some (("flags",
        some (Sql.coerced Role.BinaryElementRole fl (some expr)
          (some Op.regexp_replace_op))) :: kw) ∧
      b.binNegate = some (if op = Op.regexp_match_op then Op.not_regexp_match_op
        else Op.regexp_match_op) := by
  refine ⟨booleanTail expr op
    (Sql.coerced Role.BinaryElementRole pattern (some expr) (some op))
    (some (if op = Op.regexp_match_op then Op.not_regexp_match_op
      else Op.regexp_match_op))
    reverse (rt.getD TypeEngine.BOOLEANTYPE)
    (("flags", some (Sql.coerced Role.BinaryElementRole fl (some expr)
      (some Op.regexp_replace_op))) :: kw), ?_, ?_, ?_⟩
  · simp [_regexp_match_impl, _boolean_compare, hp]
  · exact binMods_booleanTail ..
  · cases reverse <;> rfl

/-- Witness for C10: a regex match with concrete flags. -/
theorem c10_witness :
    ∃ b, _regexp_match_impl (Sql.column 0) Op.regexp_match_op (Sql.column 1)
        (some (Sql.column 2)) false false none [] = Except.ok b ∧
      b.binMods = some [("flags",
        some (Sql.coerced Role.BinaryElementRole (Sql.column 2)
          (some (Sql.column 0)) (some Op.regexp_replace_op)))] ∧
      b.binNegate = some Op.not_regexp_match_op :=
  c10_regexp_flags_ctx (Sql.column 0) (Sql.column 1) (Sql.column 2)
    Op.regexp_match_op false false none [] rfl

end DefaultComparator
